/-
Verification of the code-indexing pipeline in `build_grammars.py`.

The program reads a source file, detects its language from the extension,
extracts function/method/constructor declarations via a tree-sitter query,
embeds the declaration texts through the Voyage AI API, upserts the batch
into a ChromaDB collection, and runs one 3-nearest-neighbour query per
declaration, printing formatted results.

Shallow embedding conventions:
  * byte buffers are `List Nat` (each entry one byte value);
  * tree-sitter nodes are records carrying the fields the script reads
    (`type`, `start_byte`, `end_byte`, `start_point`, `end_point`, and the
    `name` child's byte span); the parser and query are external, so a run
    is parameterised by the list of query matches it returns;
  * the Voyage call is an oracle `List String → Except String (List (List Int))`
    (vector components are opaque to the script, so `Int` stands in for the
    floats it never inspects; an `Except.error` models a raised exception);
  * the ChromaDB collection is an association list keyed by id; the query
    endpoint is an oracle returning the response dictionary;
  * side effects of a run (file read, parse, embed call, upsert, query) are
    recorded as an event trace, and printed lines are collected in order.
-/
import Mathlib

/-! ### UTF-8 decoding with replacement

Model of Python's `bytes.decode("utf-8", errors="replace")`: well-formed
sequences decode to their scalar value, an invalid or truncated sequence
yields U+FFFD and decoding resumes at the offending byte.  Fuel (initialised
to the buffer length, which bounds the number of steps) keeps the recursion
structural so that terms evaluate by kernel reduction. -/

def replChar : Char := Char.ofNat 0xFFFD

def isContByte (b : Nat) : Bool := 0x80 ≤ b && b ≤ 0xBF

def utf8DecodeAux : Nat → List Nat → List Char
  | 0, _ => []
  | _ + 1, [] => []
  | fuel + 1, b :: rest =>
    if b ≤ 0x7F then
      Char.ofNat b :: utf8DecodeAux fuel rest
    else if 0xC2 ≤ b && b ≤ 0xDF then
      match rest with
      | [] => [replChar]
      | c1 :: r1 =>
        if isContByte c1 then
          Char.ofNat ((b - 0xC0) * 0x40 + (c1 - 0x80)) :: utf8DecodeAux fuel r1
        else replChar :: utf8DecodeAux fuel rest
    else if 0xE0 ≤ b && b ≤ 0xEF then
      match rest with
      | [] => [replChar]
      | c1 :: r1 =>
        if (if b = 0xE0 then 0xA0 else 0x80) ≤ c1 && c1 ≤ (if b = 0xED then 0x9F else 0xBF) then
          match r1 with
          | [] => [replChar]
          | c2 :: r2 =>
            if isContByte c2 then
              Char.ofNat ((b - 0xE0) * 0x1000 + (c1 - 0x80) * 0x40 + (c2 - 0x80)) ::
                utf8DecodeAux fuel r2
            else replChar :: utf8DecodeAux fuel r1
        else replChar :: utf8DecodeAux fuel rest
    else if 0xF0 ≤ b && b ≤ 0xF4 then
      match rest with
      | [] => [replChar]
      | c1 :: r1 =>
        if (if b = 0xF0 then 0x90 else 0x80) ≤ c1 && c1 ≤ (if b = 0xF4 then 0x8F else 0xBF) then
          match r1 with
          | [] => [replChar]
          | c2 :: r2 =>
            if isContByte c2 then
              match r2 with
              | [] => [replChar]
              | c3 :: r3 =>
                if isContByte c3 then
                  Char.ofNat ((b - 0xF0) * 0x40000 + (c1 - 0x80) * 0x1000 +
                    (c2 - 0x80) * 0x40 + (c3 - 0x80)) :: utf8DecodeAux fuel r3
                else replChar :: utf8DecodeAux fuel r2
            else replChar :: utf8DecodeAux fuel r1
        else replChar :: utf8DecodeAux fuel rest
    else replChar :: utf8DecodeAux fuel rest

def utf8DecodeReplace (l : List Nat) : List Char := utf8DecodeAux l.length l

/-- `slice_text` of the script: `buf[sb:eb].decode("utf-8", errors="replace")`.
The script applies it to a tree node; here it takes the node's byte span
directly, since it is used both on declaration nodes and on name children. -/
def slice_text (buf : List Nat) (sb eb : Nat) : String :=
  String.mk (utf8DecodeReplace ((buf.take eb).drop sb))

/-! ### Language detection (`detect_lang`)

`Path.suffix` of `pathlib`: for the final path component `name`, take
`name[i:]` where `i` is the index of the last dot, provided `0 < i < len(name)-1`,
else the empty string.  `str.lower` is modelled on ASCII letters only; the
only comparisons downstream are against the ASCII strings ".py"/".java". -/

def splitOnChar (sep : Char) : List Char → List (List Char)
  | [] => [[]]
  | c :: rest =>
    let r := splitOnChar sep rest
    if c = sep then [] :: r
    else
      match r with
      | [] => [[c]]
      | l :: ls => (c :: l) :: ls

/-- Final component of a path (model of `pathlib.Path(...).name` for
non-degenerate paths: the last nonempty `/`-separated segment). -/
def pathFinalComponent (path : String) : List Char :=
  ((splitOnChar '/' path.data).filter (fun l => !l.isEmpty)).getLastD []

/-- Index of the last `.` in a component (Python `name.rfind('.')`). -/
def lastDotIdx (l : List Char) : Option Nat :=
  ((l.enum.filter (fun p => p.2 == '.')).getLast?).map (fun p => p.1)

def pySuffix (path : String) : String :=
  let nm := pathFinalComponent path
  match lastDotIdx nm with
  | some i => if 0 < i && i + 1 < nm.length then String.mk (nm.drop i) else ""
  | none => ""

def asciiLowerChar (c : Char) : Char :=
  if 'A' ≤ c && c ≤ 'Z' then Char.ofNat (c.toNat + 32) else c

def asciiLower (s : String) : String := String.mk (s.data.map asciiLowerChar)

/-- `detect_lang` of the script: `.py` → python, `.java` → java, else `None`. -/
def detect_lang (path : String) : Option String :=
  let ext := asciiLower (pySuffix path)
  if ext = ".py" then some "python"
  else if ext = ".java" then some "java"
  else none

/-! ### Tree-sitter interface -/

/-- Byte span of the `name` child of a declaration node (the only fields the
script reads from `child_by_field_name("name")`). -/
structure NameNode where
  start_byte : Nat
  end_byte : Nat
deriving DecidableEq, Inhabited

/-- A tree-sitter node as the script observes it. -/
structure TSNode where
  type : String
  start_byte : Nat
  end_byte : Nat
  start_point : Nat × Nat
  end_point : Nat × Nat
  name_child : Option NameNode
deriving DecidableEq, Inhabited

/-- A capture-dictionary key: tree-sitter versions differ on whether capture
names are `str` or `bytes`, which is why the script tries both. -/
inductive CapKey where
  | str (s : String)
  | bytes (s : String)
deriving DecidableEq

/-- The capture dictionary of one query match. -/
abbrev CapDict := List (CapKey × List TSNode)

def capGet (cd : CapDict) (k : CapKey) : Option (List TSNode) :=
  (cd.find? (fun p => p.1 == k)).map (fun p => p.2)

/-- Python's falsy `or` on an optional node list: `None` and `[]` both fall
through to the alternative. -/
def pyOrList (a : Option (List TSNode)) (b : List TSNode) : List TSNode :=
  match a with
  | some l => if l.isEmpty then b else l
  | none => b

/-- `capdict.get("decl") or capdict.get(b"decl") or []` from the script. -/
def getDecls (cd : CapDict) : List TSNode :=
  pyOrList (capGet cd (CapKey.str "decl")) (pyOrList (capGet cd (CapKey.bytes "decl")) [])

/-- The language-specific `kind_map` of the script. -/
def kind_map_for (lang : String) : List (String × String) :=
  if lang = "python" then [("function_definition", "function")]
  else [("method_declaration", "method"), ("constructor_declaration", "constructor")]

/-- The record the script appends to `items` for one matched declaration. -/
structure ExtractedItem where
  name : String
  kind : String
  start_line : Nat
  end_line : Nat
  text : String
deriving DecidableEq, Inhabited

/-- `kind_map.get(d.type, d.type)`. -/
def lookupD (m : List (String × String)) (k : String) : String :=
  match m.find? (fun p => p.1 == k) with
  | some p => p.2
  | none => k

/-- Body of the loop in `extract_code_elements` for one captured node `d`. -/
def mkItem (buf : List Nat) (km : List (String × String)) (d : TSNode) : ExtractedItem :=
  { name := match d.name_child with
      | some nn => slice_text buf nn.start_byte nn.end_byte
      | none => "<no-name>"
    kind := lookupD km d.type
    start_line := d.start_point.1 + 1
    end_line := d.end_point.1 + 1
    text := slice_text buf d.start_byte d.end_byte }

/-- The `for _, capdict in query.matches(root)` loop of `extract_code_elements`:
matches with no (effective) `decl` capture are skipped, otherwise the first
captured node yields one record. -/
def extractFromMatches (buf : List Nat) (km : List (String × String)) :
    List CapDict → List ExtractedItem
  | [] => []
  | cd :: rest =>
    match getDecls cd with
    | [] => extractFromMatches buf km rest
    | d :: _ => mkItem buf km d :: extractFromMatches buf km rest

/-! ### The per-run error exits and event trace of `extract_code_elements` -/

/-- Metadata dictionary the script builds for each stored element. -/
structure Metadata where
  file_path : String
  function_name : String
  kind : String
  start_line : Nat
  end_line : Nat
deriving DecidableEq, Inhabited

/-- Observable side effects of a run, in order. -/
inductive Event where
  | readFile (path : String)
  | parseFile
  | embedCall (payloads : List String)
  | upsertCall (ids : List String) (embeddings : List (List Int))
      (documents : List String) (metadatas : List Metadata)
  | queryCall (embedding : List Int) (n_results : Nat)
deriving DecidableEq

def Event.isWrite : Event → Bool
  | Event.upsertCall _ _ _ _ => true
  | _ => false

def Event.isQuery : Event → Bool
  | Event.queryCall _ _ => true
  | _ => false

def Event.isEmbed : Event → Bool
  | Event.embedCall _ => true
  | _ => false

inductive ExtractOutcome where
  | exit (code : Nat)
  | ok (items : List ExtractedItem)
deriving DecidableEq

structure ExtractRun where
  outcome : ExtractOutcome
  output : List String
  events : List Event
deriving DecidableEq

/-- `extract_code_elements` of the script.  The file's bytes (`none` when the
path does not exist, so that `load_bytes` hits `FileNotFoundError`) and the
matches produced by the external parser/query are run parameters.  The
language check precedes the read (`sys.exit(2)`), the read precedes the parse
(`sys.exit(1)` on a missing file). -/
def extract_code_elements (path : String) (contents : Option (List Nat))
    (tsMatches : List CapDict) : ExtractRun :=
  match detect_lang path with
  | none =>
    ⟨ExtractOutcome.exit 2,
     ["[error] Unsupported file type: " ++ path ++ " (expected .py or .java)"], []⟩
  | some lang =>
    match contents with
    | none =>
      ⟨ExtractOutcome.exit 1, ["[error] File not found: " ++ path], [Event.readFile path]⟩
    | some buf =>
      ⟨ExtractOutcome.ok (extractFromMatches buf (kind_map_for lang) tsMatches),
       [], [Event.readFile path, Event.parseFile]⟩

/-! ### ChromaDB collection -/

structure StoredEntry where
  embedding : List Int
  document : String
  metadata : Metadata
deriving DecidableEq

/-- The `project_code` collection: an association list keyed by id. -/
abbrev Store := List (String × StoredEntry)

/-- Insert-or-replace one item by id (upsert semantics). -/
def storeUpsertOne (s : Store) (id : String) (entry : StoredEntry) : Store :=
  if s.any (fun p => p.1 == id) then
    s.map (fun p => if p.1 == id then (id, entry) else p)
  else s ++ [(id, entry)]

/-- `collection.upsert(ids=…, embeddings=…, documents=…, metadatas=…)`:
index-aligned batch, items written in batch order. -/
def storeUpsert : Store → List String → List (List Int) → List String → List Metadata → Store
  | s, id :: ids, em :: ems, doc :: docs, md :: mds =>
    storeUpsert (storeUpsertOne s id ⟨em, doc, md⟩) ids ems docs mds
  | s, _, _, _, _ => s

/-! ### `format_query_results` -/

/-- A distance value in a query response, kept as an exact fraction
`num / den` (`den` positive by convention).  The script never computes with
distances, it only formats them, so an exact-rational stand-in for the float
is adequate. -/
structure DistVal where
  num : Int
  den : Nat
deriving DecidableEq, Inhabited

/-- The dictionary ChromaDB's `query` returns: one inner list per query
embedding; the script indexes the outer lists at 0. -/
structure QRDict where
  ids : List (List String)
  distances : List (List DistVal)
  metadatas : List (List Metadata)
  documents : List (List String)

structure QueryElement where
  name : String
  file_path : String

def pyIsSpace (c : Char) : Bool :=
  c = ' ' || c = '\t' || c = '\n' || c = '\r' || c = '\x0b' || c = '\x0c'

/-- Python `str.strip()`. -/
def pyStrip (s : String) : String :=
  String.mk (((s.data.dropWhile pyIsSpace).reverse.dropWhile pyIsSpace).reverse)

/-- `.replace('\n', '\n    ')` from the script. -/
def indentAfterNewlines : List Char → List Char
  | [] => []
  | c :: rest =>
    if c = '\n' then '\n' :: ' ' :: ' ' :: ' ' :: ' ' :: indentAfterNewlines rest
    else c :: indentAfterNewlines rest

def padZeros4 (n : Nat) : String :=
  if n < 10 then "000" ++ toString n
  else if n < 100 then "00" ++ toString n
  else if n < 1000 then "0" ++ toString n
  else toString n

/-- Python's `format(x, '.4f')` on the exact-fraction stand-in for the
distance: value scaled by 10000, rounded to the nearest integer with ties to
even, rendered with four decimal digits. -/
def format4f (q : DistVal) : String :=
  let den : Int := (q.den : Int)
  let scaled : Int := q.num * 10000
  let f : Int := Int.fdiv scaled den
  let rem : Int := scaled - f * den
  let n : Int :=
    if 2 * rem < den then f
    else if den < 2 * rem then f + 1
    else if f % 2 = 0 then f else f + 1
  let sgn := if n < 0 || (n == 0 && q.num < 0) then "-" else ""
  sgn ++ toString (n.natAbs / 10000) ++ "." ++ padZeros4 (n.natAbs % 10000)

/-- Fifty `=` characters (`"=" * 50`). -/
def eqSep : String := String.mk (List.replicate 50 '=')

/-- The two header prints of `format_query_results`. -/
def fqrHeader (query_element : QueryElement) : List String :=
  [eqSep,
   "Query for code similar to \x27" ++ query_element.name ++ "\x27 in \x27" ++
     query_element.file_path ++ "\x27:",
   eqSep]

/-- The five prints of one neighbour iteration (the first line's leading
newline comes from the `\n` in the script's f-string). -/
def neighborBlock (dist : DistVal) (md : Metadata) (doc : String) : List String :=
  ["\nFound a similar item with score (distance): " ++ format4f dist,
   "  File: " ++ md.file_path,
   "  Function: " ++ md.function_name ++ " (lines " ++ toString md.start_line ++ "-" ++
     toString md.end_line ++ ")",
   "  Code:",
   "    " ++ String.mk (indentAfterNewlines (pyStrip doc).data)]

/-- One neighbour iteration with list indexing; `none` models the `IndexError`
Python raises when the inner lists are shorter than `ids` (partial prints
before such a crash are not modelled). -/
def neighborBlockAt (ds : List DistVal) (ms : List Metadata) (docs : List String) (i : Nat) :
    Option (List String) :=
  match ds.get? i, ms.get? i, docs.get? i with
  | some d, some m, some doc => some (neighborBlock d m doc)
  | _, _, _ => none

def optionMapM {α β : Type} (f : α → Option β) : List α → Option (List β)
  | [] => some []
  | a :: l =>
    match f a, optionMapM f l with
    | some b, some bs => some (b :: bs)
    | _, _ => none

/-- `format_query_results` of the script: returns the printed lines in order,
or `none` when an uncaught `IndexError` would escape (empty outer lists, or
inner lists shorter than `ids`).  The loop runs over `range(1, len(ids))`:
index 0 is always skipped. -/
def format_query_results (results : QRDict) (query_element : QueryElement) :
    Option (List String) :=
  let hdr := fqrHeader query_element
  match results.ids.head?, results.distances.head?,
        results.metadatas.head?, results.documents.head? with
  | some ids, some ds, some ms, some docs =>
    if ids.length < 2 then
      some (hdr ++ ["No other similar items found in the database."])
    else
      match optionMapM (fun j => neighborBlockAt ds ms docs (j + 1))
          (List.range (ids.length - 1)) with
      | some blocks => some (hdr ++ blocks.flatten)
      | none => none
  | _, _, _, _ => none

/-! ### `main` -/

/-- The external collaborators of one run: the target file's bytes, the query
matches the parser produces on it, the Voyage embedding endpoint, and the
ChromaDB query endpoint. -/
structure World where
  fileContents : Option (List Nat)
  tsMatches : List CapDict
  embed : List String → Except String (List (List Int))
  queryFn : List Int → Nat → QRDict

/-- Result of one invocation.  `exit_code` 0 is a normal return; `crashed`
records an uncaught exception in the query/format phase (the process would
then die with a traceback). -/
structure MainResult where
  exit_code : Nat
  crashed : Bool
  output : List String
  events : List Event
  store : Store

def usageLine : String := "Usage: python3 your_script.py <path-to-file(.py|.java)>"

/-- The per-element query loop of `main` (`for i, element in enumerate(elements)`);
`embeddings[i]` and the formatter may raise `IndexError`, which stops the run. -/
def runQueries (target : String) (w : World) (embeddings : List (List Int)) :
    List ExtractedItem → Nat → List String × List Event × Bool
  | [], _ => ([], [], false)
  | el :: rest, i =>
    match embeddings.get? i with
    | none => ([], [], true)
    | some emb =>
      match format_query_results (w.queryFn emb 3) ⟨el.name, target⟩ with
      | none => ([], [Event.queryCall emb 3], true)
      | some lines =>
        let r := runQueries target w embeddings rest (i + 1)
        (lines ++ r.1, Event.queryCall emb 3 :: r.2.1, r.2.2)

/-- `main()` of the script: argument check (exit 3), extraction (which may
exit 2 or 1), the empty-result early return, the Voyage call with its
`try/except` early return, the batch upsert, and the per-element queries. -/
def pyMain (argv : List String) (w : World) (store : Store) : MainResult :=
  match argv with
  | [_, target] =>
    let ex := extract_code_elements target w.fileContents w.tsMatches
    match ex.outcome with
    | ExtractOutcome.exit c => ⟨c, false, ex.output, ex.events, store⟩
    | ExtractOutcome.ok elements =>
      if elements.isEmpty then
        ⟨0, false, ex.output ++ ["No functions/methods found in " ++ target ++ "."],
         ex.events, store⟩
      else
        let payloads := elements.map (fun it => it.text)
        let out1 := ex.output ++
          ["--- Found " ++ toString elements.length ++ " code elements in " ++ target ++ " ---",
           "\n--- Getting embeddings from Voyage AI (voyage-code-2) ---"]
        match w.embed payloads with
        | Except.error e =>
          ⟨0, false, out1 ++ ["Voyage embedding error: " ++ e],
           ex.events ++ [Event.embedCall payloads], store⟩
        | Except.ok embeddings =>
          let ids := elements.map
            (fun el => target ++ ":" ++ el.name ++ ":" ++ toString el.start_line)
          let metadatas := elements.map
            (fun el => Metadata.mk target el.name el.kind el.start_line el.end_line)
          let documents := elements.map (fun el => el.text)
          let store2 := storeUpsert store ids embeddings documents metadatas
          let out2 := out1 ++
            ["Successfully received " ++ toString embeddings.length ++ " embeddings.",
             "\n--- Adding/updating " ++ toString elements.length ++ " elements in ChromaDB ---",
             "Data upserted to ChromaDB successfully.",
             "\n--- Running Similarity Queries for Each New Element ---"]
          let evs := ex.events ++
            [Event.embedCall payloads, Event.upsertCall ids embeddings documents metadatas]
          if embeddings.isEmpty then ⟨0, false, out2, evs, store2⟩
          else
            let r := runQueries target w embeddings elements 0
            ⟨0, r.2.2, out2 ++ r.1, evs ++ r.2.1, store2⟩
  | _ => ⟨3, false, [usageLine], [], store⟩

/-! ### The spec's notion of a line byte range (for comparison with the code)

The claim under test says a record's `text` equals "the byte range of lines
`[start_line, end_line]` of the source".  The following two definitions are
modelled from those words (not from the code): 1-based inclusive line range,
lines separated by the newline byte 10. -/

/-- Modelled from the claim's words: split a buffer into lines at newline
bytes (like `bytes.split(b"\n")`). -/
def bufSplitLines : List Nat → List (List Nat)
  | [] => [[]]
  | b :: rest =>
    let r := bufSplitLines rest
    if b = 10 then [] :: r
    else
      match r with
      | [] => [[b]]
      | l :: ls => (b :: l) :: ls

/-- Modelled from the claim's words: the byte range of lines `[l1, l2]`
(1-based, inclusive) of a buffer. -/
def specLineRange (buf : List Nat) (l1 l2 : Nat) : List Nat :=
  List.intercalate [10] (((bufSplitLines buf).drop (l1 - 1)).take (l2 - l1 + 1))

/-! ### Concrete fixtures used by witnesses and counterexamples -/

/-- Bytes of `"def f(): pass"`. -/
def demoBuf : List Nat := [100, 101, 102, 32, 102, 40, 41, 58, 32, 112, 97, 115, 115]

/-- The tree node a parse of `demoBuf` yields for its one function: spans the
whole buffer, name child spans byte 4 (`f`). -/
def demoNode : TSNode := ⟨"function_definition", 0, 13, (0, 0), (0, 12), some ⟨4, 5⟩⟩

def demoMatches : List CapDict := [[(CapKey.str "decl", [demoNode])]]

def demoItems : List ExtractedItem := [⟨"f", "function", 1, 1, "def f(): pass"⟩]

def demoQR : QRDict :=
  ⟨[["x.py:f:1"]], [[⟨0, 1⟩]], [[⟨"x.py", "f", "function", 1, 1⟩]], [["def f(): pass"]]⟩

/-- A run whose embedding call raises. -/
def demoWorldErr : World :=
  ⟨some demoBuf, demoMatches, fun _ => Except.error "boom", fun _ _ => demoQR⟩

/-- A run whose embedding call returns one vector. -/
def demoWorldOk : World :=
  ⟨some demoBuf, demoMatches, fun _ => Except.ok [[7]], fun _ _ => demoQR⟩

/-- A run on a file whose declaration query yields no matches. -/
def demoWorldEmpty : World :=
  ⟨some demoBuf, [], fun _ => Except.error "unused", fun _ _ => demoQR⟩

/-- A run on a path that does not exist on disk. -/
def demoWorldMissing : World :=
  ⟨none, [], fun _ => Except.error "unused", fun _ _ => demoQR⟩

/-- Bytes of `"a\n b"`: an (indented) declaration node starting at row 1,
column 1, i.e. byte 3. -/
def c1Buf : List Nat := [97, 10, 32, 98]

def c1Node : TSNode := ⟨"function_definition", 3, 4, (1, 1), (1, 1), none⟩

def c1Matches : List CapDict := [[(CapKey.str "decl", [c1Node])]]

/-- A query response in which index 0 is NOT the self-match for the query
element below (different file, different function name). -/
def c4Results : QRDict :=
  ⟨[["other.py:g:1", "x.py:h:2", "y.py:k:3"]],
   [[⟨0, 1⟩, ⟨1, 2⟩, ⟨3, 4⟩]],
   [[⟨"other.py", "g", "function", 1, 1⟩, ⟨"x.py", "h", "function", 2, 2⟩,
     ⟨"y.py", "k", "function", 3, 3⟩]],
   [["ga", "hb", "kc"]]⟩

def c4Query : QueryElement := ⟨"f", "me.py"⟩


/-! ### Helper lemmas -/

theorem getElemD_of_lt {α : Type} [Inhabited α] (l : List α) (i : Nat) (h : i < l.length) :
    l.get? i = some (l.getD i default) := by
  rw [List.getD_eq_get?]
  cases hG : l.get? i with
  | none =>
    have := List.get?_eq_none.mp hG
    omega
  | some v => rfl

theorem optionMapM_eq_map {α β : Type} (f : α → Option β) (g : α → β) (l : List α)
    (h : ∀ a ∈ l, f a = some (g a)) : optionMapM f l = some (l.map g) := by
  induction l with
  | nil => rfl
  | cons a l ih =>
    simp only [optionMapM, h a (List.mem_cons_self a l),
      ih (fun b hb => h b (List.mem_cons_of_mem _ hb)), List.map_cons]

/-! ### Claims -/

/-- C5: language detection is a pure function of the (lower-cased) file
extension: `.py` yields python, `.java` yields java, anything else the
unsupported result, independent of the rest of the path. -/
theorem c5_detect_lang_by_extension (p : String) :
    (asciiLower (pySuffix p) = ".py" → detect_lang p = some "python") ∧
    (asciiLower (pySuffix p) = ".java" → detect_lang p = some "java") ∧
    (asciiLower (pySuffix p) ≠ ".py" → asciiLower (pySuffix p) ≠ ".java" →
      detect_lang p = none) := by
  refine ⟨fun h => ?_, fun h => ?_, fun h1 h2 => ?_⟩
  · simp [detect_lang, h]
  · simp [detect_lang, h]
  · simp [detect_lang, h1, h2]

/-- Witness for C5 at concrete paths. -/
theorem c5_witness :
    (asciiLower (pySuffix "a.py") = ".py" ∧ detect_lang "a.py" = some "python") ∧
    (asciiLower (pySuffix "dir/B.JAVA") = ".java" ∧ detect_lang "dir/B.JAVA" = some "java") ∧
    (asciiLower (pySuffix "c.txt") ≠ ".py" ∧ asciiLower (pySuffix "c.txt") ≠ ".java" ∧
      detect_lang "c.txt" = none) :=
  ⟨⟨by decide, (c5_detect_lang_by_extension "a.py").1 (by decide)⟩,
   ⟨by decide, (c5_detect_lang_by_extension "dir/B.JAVA").2.1 (by decide)⟩,
   ⟨by decide, by decide,
    (c5_detect_lang_by_extension "c.txt").2.2 (by decide) (by decide)⟩⟩

/-- C9: detection is case-insensitive in the extension: upper/mixed-case
variants of `.py` and `.java` are detected, and detection only depends on the
lower-cased extension. -/
theorem c9_case_insensitive_extension :
    detect_lang "a.PY" = some "python" ∧ detect_lang "a.Py" = some "python" ∧
    detect_lang "a.pY" = some "python" ∧ detect_lang "a.JAVA" = some "java" ∧
    detect_lang "a.JaVa" = some "java" ∧ detect_lang "a.jAvA" = some "java" ∧
    ∀ p q : String, asciiLower (pySuffix p) = asciiLower (pySuffix q) →
      detect_lang p = detect_lang q := by
  refine ⟨by decide, by decide, by decide, by decide, by decide, by decide, ?_⟩
  intro p q h
  simp only [detect_lang]
  rw [h]

/-- Witness for C9: a path equals its lower-cased-extension variant under
detection. -/
theorem c9_witness : detect_lang "x.PY" = detect_lang "x.py" :=
  c9_case_insensitive_extension.2.2.2.2.2.2 "x.PY" "x.py" (by decide)

/-- C10: the extraction loop skips a match exactly when its (effective)
`decl` capture list is empty, and otherwise produces exactly one record from
the first captured node. -/
theorem c10_first_capture_or_skip (buf : List Nat) (km : List (String × String))
    (ms : List CapDict) :
    extractFromMatches buf km ms =
      ms.filterMap (fun cd => ((getDecls cd).head?).map (mkItem buf km)) := by
  induction ms with
  | nil => rfl
  | cons cd rest ih =>
    cases hg : getDecls cd with
    | nil => simp [extractFromMatches, hg, ih]
    | cons d ds => simp [extractFromMatches, hg, ih]

/-- C7: on a path with an unsupported extension the run exits with code 2,
with an empty event trace (so the file is neither read nor parsed), an
unchanged store, and the unsupported-file-type message reported. -/
theorem c7_unsupported_extension (a0 target : String) (w : World) (store : Store)
    (hl : detect_lang target = none) :
    (pyMain [a0, target] w store).exit_code = 2 ∧
    (pyMain [a0, target] w store).events = [] ∧
    (pyMain [a0, target] w store).store = store ∧
    ("[error] Unsupported file type: " ++ target ++ " (expected .py or .java)")
      ∈ (pyMain [a0, target] w store).output := by
  simp [pyMain, extract_code_elements, hl]

/-- Witness for C7 on a `.txt` path. -/
theorem c7_witness :
    (pyMain ["prog", "a.txt"] demoWorldErr []).exit_code = 2 ∧
    (pyMain ["prog", "a.txt"] demoWorldErr []).events = [] ∧
    (pyMain ["prog", "a.txt"] demoWorldErr []).store = [] ∧
    ("[error] Unsupported file type: " ++ "a.txt" ++ " (expected .py or .java)")
      ∈ (pyMain ["prog", "a.txt"] demoWorldErr []).output :=
  c7_unsupported_extension "prog" "a.txt" demoWorldErr [] (by decide)

/-- C1 (amended): for matches that each carry a nonempty `decl` capture and
whose nodes have ordered rows, extraction returns exactly one record per
match; each record's line numbers are the node's 0-based rows plus 1 with
`start_line ≤ end_line`, and its `text` is the byte range
`[start_byte, end_byte)` of the NODE, decoded with invalid-byte substitution
(not the byte range of the whole lines). -/
theorem c1_extraction_amended (buf : List Nat) (km : List (String × String))
    (ms : List CapDict)
    (hall : ∀ cd ∈ ms, getDecls cd ≠ [])
    (hrows : ∀ cd ∈ ms, ∀ d ∈ getDecls cd, d.start_point.1 ≤ d.end_point.1) :
    (extractFromMatches buf km ms).length = ms.length ∧
    ∀ it ∈ extractFromMatches buf km ms,
      it.start_line ≤ it.end_line ∧
      ∃ cd ∈ ms, ∃ d, (getDecls cd).head? = some d ∧
        it.start_line = d.start_point.1 + 1 ∧
        it.end_line = d.end_point.1 + 1 ∧
        it.text = slice_text buf d.start_byte d.end_byte := by
  induction ms with
  | nil =>
    constructor
    · rfl
    · intro it hit
      simp [extractFromMatches] at hit
  | cons cd rest ih =>
    have hcd : getDecls cd ≠ [] := hall cd (List.mem_cons_self cd rest)
    obtain ⟨ihl, ihm⟩ := ih (fun c hc => hall c (List.mem_cons_of_mem _ hc))
      (fun c hc => hrows c (List.mem_cons_of_mem _ hc))
    cases hg : getDecls cd with
    | nil => exact absurd hg hcd
    | cons d ds =>
      constructor
      · simp [extractFromMatches, hg, ihl]
      · intro it hit
        simp only [extractFromMatches, hg] at hit
        rcases List.mem_cons.mp hit with h | h
        · subst h
          have hd : d ∈ getDecls cd := by
            rw [hg]
            exact List.mem_cons_self _ _
          have hr := hrows cd (List.mem_cons_self cd rest) d hd
          exact ⟨Nat.succ_le_succ hr,
            cd, List.mem_cons_self cd rest, d, by rw [hg]; rfl, rfl, rfl, rfl⟩
        · obtain ⟨hle, cd', hmem, d', hrest⟩ := ihm it h
          exact ⟨hle, cd', List.mem_cons_of_mem _ hmem, d', hrest⟩

/-- Witness for the amended C1 at a concrete one-match run. -/
theorem c1_extraction_amended_witness :
    (extractFromMatches demoBuf (kind_map_for "python") demoMatches).length
      = demoMatches.length ∧
    ∀ it ∈ extractFromMatches demoBuf (kind_map_for "python") demoMatches,
      it.start_line ≤ it.end_line ∧
      ∃ cd ∈ demoMatches, ∃ d, (getDecls cd).head? = some d ∧
        it.start_line = d.start_point.1 + 1 ∧
        it.end_line = d.end_point.1 + 1 ∧
        it.text = slice_text demoBuf d.start_byte d.end_byte :=
  c1_extraction_amended demoBuf (kind_map_for "python") demoMatches
    (by decide) (by decide)

/-- Counterexample to C1 as stated: over the buffer `"a\n b"`, a declaration
node spanning only byte 3 (`"b"`, an indented declaration starting at row 1,
column 1) yields a record whose `text` is `"b"`, whereas the byte range of
lines `[2, 2]` of the source decodes to `" b"`; the two differ, so a record's
text is the node's byte span, not the spanned lines' byte range. -/
theorem c1_counterexample :
    extractFromMatches c1Buf (kind_map_for "python") c1Matches =
      [⟨"<no-name>", "function", 2, 2, "b"⟩] ∧
    String.mk (utf8DecodeReplace (specLineRange c1Buf 2 2)) = " b" ∧
    ("b" : String) ≠ " b" := by decide

/-- C2: when the embedding call raises, the run reports the error, performs
no store write and no similarity query, leaves the store unchanged, and
returns normally. -/
theorem c2_embed_error_no_write (a0 target lang : String) (buf : List Nat)
    (items : List ExtractedItem) (e : String) (w : World) (store : Store)
    (hl : detect_lang target = some lang) (hb : w.fileContents = some buf)
    (hx : extractFromMatches buf (kind_map_for lang) w.tsMatches = items)
    (hne : items ≠ [])
    (he : w.embed (items.map (fun it => it.text)) = Except.error e) :
    (pyMain [a0, target] w store).store = store ∧
    (pyMain [a0, target] w store).events.filter Event.isWrite = [] ∧
    (pyMain [a0, target] w store).events.filter Event.isQuery = [] ∧
    ("Voyage embedding error: " ++ e) ∈ (pyMain [a0, target] w store).output ∧
    (pyMain [a0, target] w store).exit_code = 0 := by
  have hemp : items.isEmpty = false := by
    cases items with
    | nil => exact absurd rfl hne
    | cons a l => rfl
  simp [pyMain, extract_code_elements, hl, hb, hx, hemp, he, Event.isWrite, Event.isQuery]

/-- Witness for C2: a concrete run whose embedding endpoint raises `"boom"`. -/
theorem c2_witness :
    (pyMain ["prog", "a.py"] demoWorldErr []).store = [] ∧
    (pyMain ["prog", "a.py"] demoWorldErr []).events.filter Event.isWrite = [] ∧
    (pyMain ["prog", "a.py"] demoWorldErr []).events.filter Event.isQuery = [] ∧
    ("Voyage embedding error: " ++ "boom") ∈ (pyMain ["prog", "a.py"] demoWorldErr []).output ∧
    (pyMain ["prog", "a.py"] demoWorldErr []).exit_code = 0 :=
  c2_embed_error_no_write "prog" "a.py" "python" demoBuf demoItems "boom"
    demoWorldErr [] (by decide) rfl (by decide) (by decide) rfl

/-- C3: when the run reaches the store write (nonempty extraction, embedding
call succeeded and, per the embedding client's contract, returned one vector
per payload), the batch passed to upsert consists of four index-aligned lists
of equal length in extraction order: ids are `"<path>:<name>:<start_line>"`,
documents are the declarations' texts, metadatas carry exactly file_path,
function_name, kind, start_line, end_line of each declaration. -/
theorem c3_upsert_batch_aligned (a0 target lang : String) (buf : List Nat)
    (items : List ExtractedItem) (embs : List (List Int)) (w : World) (store : Store)
    (hl : detect_lang target = some lang) (hb : w.fileContents = some buf)
    (hx : extractFromMatches buf (kind_map_for lang) w.tsMatches = items)
    (hne : items ≠ [])
    (he : w.embed (items.map (fun it => it.text)) = Except.ok embs)
    (hlen : embs.length = items.length) :
    Event.upsertCall
        (items.map (fun el => target ++ ":" ++ el.name ++ ":" ++ toString el.start_line))
        embs
        (items.map (fun el => el.text))
        (items.map (fun el => Metadata.mk target el.name el.kind el.start_line el.end_line))
      ∈ (pyMain [a0, target] w store).events ∧
    (items.map (fun el => target ++ ":" ++ el.name ++ ":" ++ toString el.start_line)).length
      = items.length ∧
    embs.length = items.length ∧
    (items.map (fun el => el.text)).length = items.length ∧
    (items.map
      (fun el => Metadata.mk target el.name el.kind el.start_line el.end_line)).length
      = items.length := by
  have hemp : items.isEmpty = false := by
    cases items with
    | nil => exact absurd rfl hne
    | cons a l => rfl
  have hene : embs.isEmpty = false := by
    cases embs with
    | nil =>
      cases items with
      | nil => exact absurd rfl hne
      | cons a l => simp at hlen
    | cons v vs => rfl
  refine ⟨?_, by simp, hlen, by simp, by simp⟩
  simp [pyMain, extract_code_elements, hl, hb, hx, hemp, he, hene]

/-- Witness for C3: a concrete run with one declaration and one vector. -/
theorem c3_witness :
    Event.upsertCall
        (demoItems.map (fun el => "a.py" ++ ":" ++ el.name ++ ":" ++ toString el.start_line))
        [[7]]
        (demoItems.map (fun el => el.text))
        (demoItems.map (fun el => Metadata.mk "a.py" el.name el.kind el.start_line el.end_line))
      ∈ (pyMain ["prog", "a.py"] demoWorldOk []).events ∧
    (demoItems.map
      (fun el => "a.py" ++ ":" ++ el.name ++ ":" ++ toString el.start_line)).length
      = demoItems.length ∧
    ([[7]] : List (List Int)).length = demoItems.length ∧
    (demoItems.map (fun el => el.text)).length = demoItems.length ∧
    (demoItems.map
      (fun el => Metadata.mk "a.py" el.name el.kind el.start_line el.end_line)).length
      = demoItems.length :=
  c3_upsert_batch_aligned "prog" "a.py" "python" demoBuf demoItems [[7]]
    demoWorldOk [] (by decide) rfl (by decide) (by decide) rfl rfl

/-- C6: on a supported, readable file whose declaration query yields zero
matches, the run reports that nothing was found and ends successfully, with
no embedding call, no store write, no query, and an unchanged store. -/
theorem c6_zero_matches_success (a0 target lang : String) (buf : List Nat)
    (w : World) (store : Store)
    (hl : detect_lang target = some lang) (hb : w.fileContents = some buf)
    (hx : extractFromMatches buf (kind_map_for lang) w.tsMatches = []) :
    (pyMain [a0, target] w store).exit_code = 0 ∧
    (pyMain [a0, target] w store).crashed = false ∧
    (pyMain [a0, target] w store).store = store ∧
    (pyMain [a0, target] w store).events.filter Event.isEmbed = [] ∧
    (pyMain [a0, target] w store).events.filter Event.isWrite = [] ∧
    (pyMain [a0, target] w store).events.filter Event.isQuery = [] ∧
    ("No functions/methods found in " ++ target ++ ".")
      ∈ (pyMain [a0, target] w store).output := by
  simp [pyMain, extract_code_elements, hl, hb, hx,
    Event.isEmbed, Event.isWrite, Event.isQuery]

/-- Witness for C6: a run whose query yields no matches. -/
theorem c6_witness :
    (pyMain ["prog", "a.py"] demoWorldEmpty []).exit_code = 0 ∧
    (pyMain ["prog", "a.py"] demoWorldEmpty []).crashed = false ∧
    (pyMain ["prog", "a.py"] demoWorldEmpty []).store = [] ∧
    (pyMain ["prog", "a.py"] demoWorldEmpty []).events.filter Event.isEmbed = [] ∧
    (pyMain ["prog", "a.py"] demoWorldEmpty []).events.filter Event.isWrite = [] ∧
    (pyMain ["prog", "a.py"] demoWorldEmpty []).events.filter Event.isQuery = [] ∧
    ("No functions/methods found in " ++ "a.py" ++ ".")
      ∈ (pyMain ["prog", "a.py"] demoWorldEmpty []).output :=
  c6_zero_matches_success "prog" "a.py" "python" demoBuf demoWorldEmpty []
    (by decide) rfl rfl

/-- C8: on a supported path that does not exist, the run exits with code 1
(the file-not-found error) after attempting only the read — no parse event —
and that exit code differs from the one of every missing-argument run (3) and
of every unsupported-extension run (2). -/
theorem c8_missing_file_distinct (a0 target lang : String) (w : World) (store : Store)
    (hl : detect_lang target = some lang) (hb : w.fileContents = none) :
    (pyMain [a0, target] w store).exit_code = 1 ∧
    (pyMain [a0, target] w store).events = [Event.readFile target] ∧
    Event.parseFile ∉ (pyMain [a0, target] w store).events ∧
    ("[error] File not found: " ++ target) ∈ (pyMain [a0, target] w store).output ∧
    (∀ (argv2 : List String) (w2 : World) (s2 : Store), argv2.length ≠ 2 →
      (pyMain argv2 w2 s2).exit_code ≠ (pyMain [a0, target] w store).exit_code) ∧
    (∀ (a2 t2 : String) (w2 : World) (s2 : Store), detect_lang t2 = none →
      (pyMain [a2, t2] w2 s2).exit_code ≠ (pyMain [a0, target] w store).exit_code) := by
  have hrun : (pyMain [a0, target] w store).exit_code = 1 := by
    simp [pyMain, extract_code_elements, hl, hb]
  refine ⟨hrun, ?_, ?_, ?_, ?_, ?_⟩
  · simp [pyMain, extract_code_elements, hl, hb]
  · simp [pyMain, extract_code_elements, hl, hb]
  · simp [pyMain, extract_code_elements, hl, hb]
  · intro argv2 w2 s2 hlen2
    rw [hrun]
    match argv2, hlen2 with
    | [], _ => simp [pyMain]
    | [x], _ => simp [pyMain]
    | [x, y], h => exact absurd rfl h
    | x :: y :: z :: t, _ => simp [pyMain]
  · intro a2 t2 w2 s2 hun
    rw [hrun]
    simp [pyMain, extract_code_elements, hun]

/-- Witness for C8: a run on a missing `.java` path. -/
theorem c8_witness :
    (pyMain ["prog", "b.java"] demoWorldMissing []).exit_code = 1 ∧
    (pyMain ["prog", "b.java"] demoWorldMissing []).events = [Event.readFile "b.java"] ∧
    Event.parseFile ∉ (pyMain ["prog", "b.java"] demoWorldMissing []).events ∧
    ("[error] File not found: " ++ "b.java")
      ∈ (pyMain ["prog", "b.java"] demoWorldMissing []).output ∧
    (∀ (argv2 : List String) (w2 : World) (s2 : Store), argv2.length ≠ 2 →
      (pyMain argv2 w2 s2).exit_code
        ≠ (pyMain ["prog", "b.java"] demoWorldMissing []).exit_code) ∧
    (∀ (a2 t2 : String) (w2 : World) (s2 : Store), detect_lang t2 = none →
      (pyMain [a2, t2] w2 s2).exit_code
        ≠ (pyMain ["prog", "b.java"] demoWorldMissing []).exit_code) :=
  c8_missing_file_distinct "prog" "b.java" "java" demoWorldMissing [] (by decide) rfl

/-- Counterexample to C4 as stated: in `c4Results` the item at index 0 is not
the self-match for the query element (different file and function name), yet
the formatter still omits it — its block is absent from the output while the
blocks of indices 1 and 2 are present, so the formatter does not "show all k
neighbors" when index 0 is not recognized as the self-match. -/
theorem c4_counterexample :
    (c4Results.metadatas.getD 0 []).getD 0 default ≠
      Metadata.mk c4Query.file_path c4Query.name "function" 1 1 ∧
    (format_query_results c4Results c4Query).isSome = true ∧
    "  Function: g (lines 1-1)" ∉ (format_query_results c4Results c4Query).getD [] ∧
    "  Function: h (lines 2-2)" ∈ (format_query_results c4Results c4Query).getD [] ∧
    "  Function: k (lines 3-3)" ∈ (format_query_results c4Results c4Query).getD [] := by
  decide

/-- C4 (amended): the formatter always skips index 0, whether or not it is
the self-match; when the response holds fewer than two items it reports that
no other similar items were found, and otherwise it prints, for each index
`1 ≤ i < k`, that neighbour's distance, file, function name, line range and
indented source text. -/
theorem c4_formatter_amended (ids : List String) (ds : List DistVal)
    (ms : List Metadata) (docs : List String) (ti : List (List String))
    (td : List (List DistVal)) (tm : List (List Metadata))
    (tdoc : List (List String)) (qe : QueryElement)
    (hd : ds.length = ids.length) (hm : ms.length = ids.length)
    (hdoc : docs.length = ids.length) :
    format_query_results ⟨ids :: ti, ds :: td, ms :: tm, docs :: tdoc⟩ qe =
      some (fqrHeader qe ++
        (if ids.length < 2 then ["No other similar items found in the database."]
         else ((List.range (ids.length - 1)).map (fun j =>
           neighborBlock (ds.getD (j + 1) default) (ms.getD (j + 1) default)
             (docs.getD (j + 1) default))).flatten)) := by
  by_cases h2 : ids.length < 2
  · simp [format_query_results, h2]
  · have key : ∀ j ∈ List.range (ids.length - 1),
        neighborBlockAt ds ms docs (j + 1) =
          some (neighborBlock (ds.getD (j + 1) default) (ms.getD (j + 1) default)
            (docs.getD (j + 1) default)) := by
      intro j hj
      have hjlt : j + 1 < ids.length := by
        have := List.mem_range.mp hj
        omega
      rw [neighborBlockAt, getElemD_of_lt ds (j + 1) (by omega),
        getElemD_of_lt ms (j + 1) (by omega), getElemD_of_lt docs (j + 1) (by omega)]
    simp [format_query_results, h2, optionMapM_eq_map _ _ _ key]

/-- Witness for the amended C4 on a concrete aligned two-item response. -/
theorem c4_formatter_amended_witness :
    format_query_results
        ⟨["me.py:f:1", "x.py:h:2"] :: [], [⟨0, 1⟩, ⟨1, 2⟩] :: [],
         [⟨"me.py", "f", "function", 1, 1⟩, ⟨"x.py", "h", "function", 2, 2⟩] :: [],
         ["def f(): pass", "def h(): pass"] :: []⟩ ⟨"f", "me.py"⟩ =
      some (fqrHeader ⟨"f", "me.py"⟩ ++
        (if (["me.py:f:1", "x.py:h:2"] : List String).length < 2 then
          ["No other similar items found in the database."]
         else ((List.range ((["me.py:f:1", "x.py:h:2"] : List String).length - 1)).map
           (fun j => neighborBlock
             (([⟨0, 1⟩, ⟨1, 2⟩] : List DistVal).getD (j + 1) default)
             (([⟨"me.py", "f", "function", 1, 1⟩,
                ⟨"x.py", "h", "function", 2, 2⟩] : List Metadata).getD (j + 1) default)
             ((["def f(): pass", "def h(): pass"] : List String).getD (j + 1) default))).flatten)) :=
  c4_formatter_amended ["me.py:f:1", "x.py:h:2"] [⟨0, 1⟩, ⟨1, 2⟩]
    [⟨"me.py", "f", "function", 1, 1⟩, ⟨"x.py", "h", "function", 2, 2⟩]
    ["def f(): pass", "def h(): pass"] [] [] [] [] ⟨"f", "me.py"⟩ rfl rfl rfl
